import Mathlib

/-!
Shallow embedding of the ESP32 TCD1304 spectrometer firmware
(`esp32_code.ino`): protocol codec, dark-spectrum correction engine,
spectral calibration and the acquisition state machine of `loop()`.
Machine integers are modelled as `Nat`/`Int` with explicit `% 2^w`
where C unsigned wraparound matters; the C `float` calibration
arithmetic is modelled over exact rationals (`ℚ`).
-/

namespace Raman

/-! ## Protocol constants (esp32_code.ino lines 46-55, 167) -/

def PACKET_SIZE : Nat := 7388

def PIXEL_COUNT : Nat := 3694

def ADC_MAX_VALUE : Nat := 4095

def NUM_INTEGRATIONS : Nat := 1

def PACKET_START_MARKER : List Nat := [0xAA, 0xBB, 0xCC, 0xDD]

/-- A spectrum: one unsigned 16-bit sample per detector pixel. -/
def Spectrum : Type := Fin PIXEL_COUNT → Nat

/-! ## Bus protocol codec -/

/-- `AcquisitionParameters`: the globals `SH_PERIOD` (u32), `ICG_PERIOD`
(u32) and `NUM_INTEGRATIONS` (u16) that `buildCommand` serializes. -/
structure AcquisitionParameters where
  shPeriod : Nat
  icgPeriod : Nat
  integrations : Nat

/-- `buildCommand` (lines 774-789): zero-fills the `PACKET_SIZE` tx buffer,
writes the magic "ER", the big-endian u32 `SH_PERIOD` at bytes 2-5, the
big-endian u32 `ICG_PERIOD` at bytes 6-9, the constant mode byte `0x01`
at byte 10 and the big-endian u16 integration count at bytes 11-12.
`(x >> k) & 0xFF` is `x / 2^k % 256`. -/
def buildCommand (p : AcquisitionParameters) : Nat → Nat := fun i =>
  if i = 0 then 0x45
  else if i = 1 then 0x52
  else if i = 2 then p.shPeriod / 2 ^ 24 % 256
  else if i = 3 then p.shPeriod / 2 ^ 16 % 256
  else if i = 4 then p.shPeriod / 2 ^ 8 % 256
  else if i = 5 then p.shPeriod % 256
  else if i = 6 then p.icgPeriod / 2 ^ 24 % 256
  else if i = 7 then p.icgPeriod / 2 ^ 16 % 256
  else if i = 8 then p.icgPeriod / 2 ^ 8 % 256
  else if i = 9 then p.icgPeriod % 256
  else if i = 10 then 0x01
  else if i = 11 then p.integrations / 2 ^ 8 % 256
  else if i = 12 then p.integrations % 256
  else 0

/-- Reassemble four consecutive frame bytes as a big-endian u32. -/
def decodeBE4 (frame : Nat → Nat) (off : Nat) : Nat :=
  frame off * 2 ^ 24 + frame (off + 1) * 2 ^ 16 + frame (off + 2) * 2 ^ 8
    + frame (off + 3)

/-- Reassemble two consecutive frame bytes as a big-endian u16. -/
def decodeBE2 (frame : Nat → Nat) (off : Nat) : Nat :=
  frame off * 2 ^ 8 + frame (off + 1)

/-- One pixel of `processData_Raw` (lines 873-882): `lsb` is the byte at
offset `2*i` of the rx buffer, `msb` the byte at `2*i+1`;
`raw_pixel_data[i] = ADC_MAX_VALUE - ((msb << 8) | lsb)` computed in C
`int` arithmetic and stored into a `uint16_t`, i.e. reduced mod `2^16`
(the `% 256` make the byte range of `uint8_t` explicit). -/
def processPixel (lsb msb : Nat) : Nat :=
  (ADC_MAX_VALUE + 2 ^ 16 - (msb % 256 * 2 ^ 8 + lsb % 256)) % 2 ^ 16

/-- `processData_Raw` (lines 873-882): decode the rx buffer into
`raw_pixel_data`, low byte at offset `2*i`, high byte at `2*i+1`. -/
def processData_Raw (rx : Nat → Nat) : Spectrum :=
  fun i => processPixel (rx (2 * i.val)) (rx (2 * i.val + 1))

/-- Modelled from the spec's words (§4.2 / claim C3), for comparison with
`processData_Raw`: "sample = ADC_FULL_SCALE − bigEndian16(byte0, byte1)"
where byte0, the byte at offset `2*i`, is taken as the HIGH byte of the
16-bit count and byte1 at `2*i+1` as the LOW byte. -/
def specDecode_bigEndian (rx : Nat → Nat) (i : Nat) : Nat :=
  ADC_MAX_VALUE - (rx (2 * i) * 2 ^ 8 + rx (2 * i + 1))

/-! ## Correction engine -/

/-- One pixel of `applyDarkSpectrumCorrection` (lines 854-868):
`raw - dark` when `raw > dark`, else `0`. Under the guard the C `int`
subtraction is non-negative and below `2^16`, so plain `Nat`
subtraction is exact. -/
def correctPixel (raw dark : Nat) : Nat :=
  if dark < raw then raw - dark else 0

/-- `applyDarkSpectrumCorrection` (lines 854-868): with a saved dark
spectrum, subtract it pixel-wise clamping at zero; otherwise
`pixel_data` is a verbatim copy of `raw_pixel_data`. -/
def applyDarkSpectrumCorrection (darkSaved : Bool) (raw dark : Spectrum) :
    Spectrum :=
  if darkSaved then fun i => correctPixel (raw i) (dark i) else raw

/-- `sendDataViaWiFi` (lines 817-832) as the byte stream written to the
TCP client: when a client is connected, the 4-byte start marker followed
by `pixel_data` laid out as little-endian u16 pairs; nothing otherwise. -/
def sendDataViaWiFi (connected : Bool) (data : Spectrum) : List Nat :=
  if connected then
    PACKET_START_MARKER ++
      (List.finRange PIXEL_COUNT).flatMap (fun i => [data i % 256, data i / 256 % 256])
  else []

/-! ## Calibration module (floats modelled as exact rationals) -/

def CAL_LAMBDA_1 : ℚ := 532

def CAL_PIXEL_1 : ℤ := 387

def CAL_LAMBDA_2 : ℚ := 6328 / 10

def CAL_PIXEL_2 : ℤ := 2416

def EXC_LAMBDA : ℚ := 532

/-- Calibration coefficients computed once in `setup()` (lines 935-936). -/
def cal_slope_a : ℚ := (CAL_LAMBDA_2 - CAL_LAMBDA_1) / ((CAL_PIXEL_2 : ℚ) - (CAL_PIXEL_1 : ℚ))

def cal_intercept_b : ℚ := CAL_LAMBDA_1 - cal_slope_a * (CAL_PIXEL_1 : ℚ)

/-- `pixelToWavelength` (lines 468-470). -/
def pixelToWavelength (pixel : ℤ) : ℚ :=
  cal_slope_a * (pixel : ℚ) + cal_intercept_b

/-- `wavelengthToWavenumber` (lines 475-480): `0` at or below the
excitation wavelength, otherwise `(1/λ_exc − 1/λ) × 10^7`. -/
def wavelengthToWavenumber (lambda_nm : ℚ) : ℚ :=
  if lambda_nm ≤ EXC_LAMBDA then 0
  else (1 / EXC_LAMBDA - 1 / lambda_nm) * 10000000

/-! ## Acquisition state machine (`loop()`, lines 968-1156) -/

/-- The UI state machine's `ScreenState` enum (lines 31-39). -/
inductive ScreenState where
  | STATE_MAIN_MENU
  | STATE_SETTINGS
  | STATE_SETTINGS_ACQ
  | STATE_SETTINGS_AXIS
  | STATE_ACQUISITION_CONT
  | STATE_ACQUISITION_SINGLE
  | STATE_ACQUISITION_DARK
  deriving DecidableEq

/-- `XAxisUnit` enum (line 111). -/
inductive XAxisUnit where
  | UNIT_PIXEL
  | UNIT_NM
  | UNIT_CM_1
  deriving DecidableEq

/-- Observable side effects of one `loop()` iteration, in program order:
the transmit-only SPI kick-start (`requestFirstScan`), the full-duplex
SPI exchange (`readDataAndRequestNext`), an invocation of
`sendDataViaWiFi` with the current `pixel_data`, a spectrum render
(`drawGraph_GFX`) and a menu render (`drawCurrentScreen`). -/
inductive Event where
  | kickStart
  | busExchange
  | wifiSend (data : Spectrum)
  | drawGraph (mode : ScreenState)
  | drawScreen (mode : ScreenState)

/-- The firmware's global mutable state, plus the event log of the side
effects performed so far. -/
structure DeviceState where
  currentState : ScreenState
  shPeriod : Nat
  icgPeriod : Nat
  txBuffer : Nat → Nat
  rawPixelData : Spectrum
  pixelData : Spectrum
  darkSpectrumData : Spectrum
  darkSpectrumSaved : Bool
  dataReady : Bool
  waitingForSingleScan : Bool
  mainMenuSelection : Int
  settingsSelection : Int
  settingsAcqSelection : Int
  settingsAxisSelection : Int
  settingsEditMode : Bool
  currentXUnit : XAxisUnit
  plotPixelMin : Int
  plotPixelMax : Int
  plotAdcMin : Int
  plotAdcMax : Int
  redrawScreen : Bool
  log : List Event

/-- One iteration's decoded user input: encoder rotation direction
(`-1`/`0`/`1`), short click, and 3-second long press. -/
structure Input where
  rotation : Int
  clicked : Bool
  longPress : Bool

/-- C `uint32_t x += step` with an `int` step: two's-complement
wraparound, i.e. addition mod `2^32`. -/
def u32add (a : Nat) (step : Int) : Nat :=
  (((a : Int) + step) % 2 ^ 32).toNat

/-- Arduino `constrain(amt, low, high)`. -/
def constrain (x lo hi : Int) : Int :=
  if x < lo then lo else if hi < x then hi else x

/-- `onDataReady` ISR (lines 760-762): only sets the flag. -/
def onDataReady (s : DeviceState) : DeviceState :=
  {s with dataReady := true}

/-- `saveDarkSpectrum` (lines 837-849): copy `raw_pixel_data` into
`dark_spectrum_data` and mark it saved. -/
def saveDarkSpectrum (s : DeviceState) : DeviceState :=
  {s with darkSpectrumData := s.rawPixelData, darkSpectrumSaved := true}

/-- `changeState` (lines 500-540): set the new screen state, request a
redraw; on entering an acquisition mode rebuild the command frame and
issue the kick-start transmit, arming the single-scan latch for
SingleScan/DarkCapture; on entering a settings screen leave edit mode. -/
def changeState (s : DeviceState) (newState : ScreenState) : DeviceState :=
  let s := {s with currentState := newState, redrawScreen := true}
  match newState with
  | .STATE_ACQUISITION_CONT =>
      {s with txBuffer := buildCommand ⟨s.shPeriod, s.icgPeriod, NUM_INTEGRATIONS⟩,
              log := s.log ++ [Event.kickStart]}
  | .STATE_ACQUISITION_SINGLE =>
      {s with txBuffer := buildCommand ⟨s.shPeriod, s.icgPeriod, NUM_INTEGRATIONS⟩,
              log := s.log ++ [Event.kickStart],
              waitingForSingleScan := true}
  | .STATE_ACQUISITION_DARK =>
      {s with txBuffer := buildCommand ⟨s.shPeriod, s.icgPeriod, NUM_INTEGRATIONS⟩,
              log := s.log ++ [Event.kickStart],
              waitingForSingleScan := true}
  | .STATE_SETTINGS => {s with settingsEditMode := false}
  | .STATE_SETTINGS_ACQ => {s with settingsEditMode := false}
  | .STATE_SETTINGS_AXIS => {s with settingsEditMode := false}
  | .STATE_MAIN_MENU => s

/-- `handleMainMenuInput` (lines 545-564). -/
def handleMainMenuInput (s : DeviceState) (rotation : Int) (clicked : Bool) :
    DeviceState :=
  let s :=
    if rotation ≠ 0 then
      let m := s.mainMenuSelection + rotation
      let m := if 3 < m then 0 else m
      let m := if m < 0 then 3 else m
      {s with mainMenuSelection := m, redrawScreen := true}
    else s
  if clicked then
    if s.mainMenuSelection = 0 then changeState s .STATE_ACQUISITION_CONT
    else if s.mainMenuSelection = 1 then changeState s .STATE_ACQUISITION_SINGLE
    else if s.mainMenuSelection = 2 then changeState s .STATE_ACQUISITION_DARK
    else if s.mainMenuSelection = 3 then changeState s .STATE_SETTINGS
    else s
  else s

/-- `handleSettingsInput` (lines 569-587). -/
def handleSettingsInput (s : DeviceState) (rotation : Int) (clicked : Bool) :
    DeviceState :=
  let s :=
    if rotation ≠ 0 then
      let m := s.settingsSelection + rotation
      let m := if 2 < m then 0 else m
      let m := if m < 0 then 2 else m
      {s with settingsSelection := m, redrawScreen := true}
    else s
  if clicked then
    let s :=
      if s.settingsSelection = 0 then changeState s .STATE_SETTINGS_ACQ
      else if s.settingsSelection = 1 then changeState s .STATE_SETTINGS_AXIS
      else if s.settingsSelection = 2 then changeState s .STATE_MAIN_MENU
      else s
    {s with redrawScreen := true}
  else s

/-- `handleSettingsAcqInput` (lines 592-638): in edit mode a rotation
steps `SH_PERIOD` by ±100 or `ICG_PERIOD` by ±1000 in `uint32_t`
arithmetic, then applies the `< 40` / `< 32000` floor checks. -/
def handleSettingsAcqInput (s : DeviceState) (rotation : Int) (clicked : Bool) :
    DeviceState :=
  if s.settingsEditMode then
    let s :=
      if rotation ≠ 0 then
        let step : Int := if 0 < rotation then 100 else -100
        let s :=
          if s.settingsAcqSelection = 0 then
            let sh := u32add s.shPeriod step
            {s with shPeriod := if sh < 40 then 40 else sh}
          else if s.settingsAcqSelection = 1 then
            let icg := u32add s.icgPeriod (step * 10)
            {s with icgPeriod := if icg < 32000 then 32000 else icg}
          else s
        {s with redrawScreen := true}
      else s
    if clicked then {s with settingsEditMode := false, redrawScreen := true} else s
  else
    let s :=
      if rotation ≠ 0 then
        let m := s.settingsAcqSelection + rotation
        let m := if 2 < m then 0 else m
        let m := if m < 0 then 2 else m
        {s with settingsAcqSelection := m, redrawScreen := true}
      else s
    if clicked then
      let s :=
        if s.settingsAcqSelection = 0 ∨ s.settingsAcqSelection = 1 then
          {s with settingsEditMode := true}
        else if s.settingsAcqSelection = 2 then changeState s .STATE_SETTINGS
        else s
      {s with redrawScreen := true}
    else s

/-- `handleSettingsAxisInput` (lines 643-707). -/
def handleSettingsAxisInput (s : DeviceState) (rotation : Int) (clicked : Bool) :
    DeviceState :=
  if s.settingsEditMode then
    let s :=
      if rotation ≠ 0 then
        let stepPx : Int := if 0 < rotation then 10 else -10
        let stepAdc : Int := if 0 < rotation then 50 else -50
        let s :=
          if s.settingsAxisSelection = 1 then
            let v := constrain (s.plotPixelMin + stepPx) 0 (s.plotPixelMax - 10)
            {s with plotPixelMin := v}
          else if s.settingsAxisSelection = 2 then
            let v := constrain (s.plotPixelMax + stepPx) (s.plotPixelMin + 10)
              ((PIXEL_COUNT : Int) - 1)
            {s with plotPixelMax := v}
          else if s.settingsAxisSelection = 3 then
            let v := constrain (s.plotAdcMin + stepAdc) 0 (s.plotAdcMax - 100)
            {s with plotAdcMin := v}
          else if s.settingsAxisSelection = 4 then
            let v := constrain (s.plotAdcMax + stepAdc) (s.plotAdcMin + 100)
              (ADC_MAX_VALUE : Int)
            {s with plotAdcMax := v}
          else s
        {s with redrawScreen := true}
      else s
    if clicked then {s with settingsEditMode := false, redrawScreen := true} else s
  else
    let s :=
      if rotation ≠ 0 then
        let m := s.settingsAxisSelection + rotation
        let m := if 5 < m then 0 else m
        let m := if m < 0 then 5 else m
        {s with settingsAxisSelection := m, redrawScreen := true}
      else s
    if clicked then
      let s :=
        if s.settingsAxisSelection = 1 ∨ s.settingsAxisSelection = 2 ∨
           s.settingsAxisSelection = 3 ∨ s.settingsAxisSelection = 4 then
          {s with settingsEditMode := true}
        else if s.settingsAxisSelection = 0 then
          {s with currentXUnit :=
            match s.currentXUnit with
            | .UNIT_PIXEL => .UNIT_NM
            | .UNIT_NM => .UNIT_CM_1
            | .UNIT_CM_1 => .UNIT_PIXEL}
        else if s.settingsAxisSelection = 5 then changeState s .STATE_SETTINGS
        else s
      {s with redrawScreen := true}
    else s

/-- The UI-navigation `switch (currentState)` of `loop()`
(lines 1049-1087): dispatch to the menu handlers; in ContinuousScan a
click exits; in SingleScan a rotation exits; in DarkCapture a click or
rotation exits and a long press saves the dark spectrum then exits. -/
def uiStep (s : DeviceState) (inp : Input) : DeviceState :=
  match s.currentState with
  | .STATE_MAIN_MENU => handleMainMenuInput s inp.rotation inp.clicked
  | .STATE_SETTINGS => handleSettingsInput s inp.rotation inp.clicked
  | .STATE_SETTINGS_ACQ => handleSettingsAcqInput s inp.rotation inp.clicked
  | .STATE_SETTINGS_AXIS => handleSettingsAxisInput s inp.rotation inp.clicked
  | .STATE_ACQUISITION_CONT =>
      if inp.clicked then changeState s .STATE_MAIN_MENU else s
  | .STATE_ACQUISITION_SINGLE =>
      if inp.rotation ≠ 0 then changeState s .STATE_MAIN_MENU else s
  | .STATE_ACQUISITION_DARK =>
      let s :=
        if inp.clicked || inp.rotation ≠ 0 then changeState s .STATE_MAIN_MENU
        else s
      if inp.longPress then changeState (saveDarkSpectrum s) .STATE_MAIN_MENU
      else s

/-- The acquisition section of `loop()` (lines 1092-1142), run after the
UI dispatch on the possibly-updated state; `rx` is the frame a bus
exchange in this iteration deposits in `rx_buffer`. -/
def acqStep (s : DeviceState) (inp : Input) (rx : Nat → Nat) : DeviceState :=
  if s.currentState = .STATE_ACQUISITION_CONT then
    if s.dataReady then
      let s := {s with dataReady := false, log := s.log ++ [Event.busExchange]}
      let raw := processData_Raw rx
      let s := {s with rawPixelData := raw}
      let corrected :=
        applyDarkSpectrumCorrection s.darkSpectrumSaved raw s.darkSpectrumData
      {s with pixelData := corrected,
              log := s.log ++ [Event.wifiSend corrected,
                               Event.drawGraph .STATE_ACQUISITION_CONT]}
    else s
  else if s.currentState = .STATE_ACQUISITION_SINGLE then
    let s :=
      if s.dataReady && s.waitingForSingleScan then
        let s := {s with dataReady := false, waitingForSingleScan := false,
                         log := s.log ++ [Event.busExchange]}
        let raw := processData_Raw rx
        let s := {s with rawPixelData := raw}
        let corrected :=
          applyDarkSpectrumCorrection s.darkSpectrumSaved raw s.darkSpectrumData
        {s with pixelData := corrected,
                log := s.log ++ [Event.wifiSend corrected,
                                 Event.drawGraph .STATE_ACQUISITION_SINGLE]}
      else if inp.clicked && !s.waitingForSingleScan then
        {s with waitingForSingleScan := true, log := s.log ++ [Event.kickStart]}
      else s
    if s.dataReady && !s.waitingForSingleScan then {s with dataReady := false}
    else s
  else if s.currentState = .STATE_ACQUISITION_DARK then
    let s :=
      if s.dataReady && s.waitingForSingleScan then
        let s := {s with dataReady := false, waitingForSingleScan := false,
                         log := s.log ++ [Event.busExchange]}
        let raw := processData_Raw rx
        {s with rawPixelData := raw, pixelData := raw,
                log := s.log ++ [Event.drawGraph .STATE_ACQUISITION_DARK]}
      else s
    if s.dataReady && !s.waitingForSingleScan then {s with dataReady := false}
    else s
  else s

/-- The menu-redraw section of `loop()` (lines 1147-1153). -/
def redrawStep (s : DeviceState) : DeviceState :=
  if s.redrawScreen = true ∧ s.currentState ≠ .STATE_ACQUISITION_CONT ∧
     s.currentState ≠ .STATE_ACQUISITION_SINGLE ∧
     s.currentState ≠ .STATE_ACQUISITION_DARK then
    {s with log := s.log ++ [Event.drawScreen s.currentState], redrawScreen := false}
  else s

/-- One iteration of `loop()`: UI dispatch, acquisition logic, redraw. -/
def loopStep (s : DeviceState) (inp : Input) (rx : Nat → Nat) : DeviceState :=
  redrawStep (acqStep (uiStep s inp) inp rx)

/-- The four non-acquisition (menu/settings) screen states. -/
def isMenuState : ScreenState → Bool
  | .STATE_MAIN_MENU => true
  | .STATE_SETTINGS => true
  | .STATE_SETTINGS_ACQ => true
  | .STATE_SETTINGS_AXIS => true
  | _ => false

/-- The global state as `setup()` (lines 891-963) leaves it: main menu,
default periods `5000000`, no dark spectrum, flags clear, zeroed
buffers, full plotting range. -/
def initState : DeviceState where
  currentState := .STATE_MAIN_MENU
  shPeriod := 5000000
  icgPeriod := 5000000
  txBuffer := buildCommand ⟨5000000, 5000000, NUM_INTEGRATIONS⟩
  rawPixelData := fun _ => 0
  pixelData := fun _ => 0
  darkSpectrumData := fun _ => 0
  darkSpectrumSaved := false
  dataReady := false
  waitingForSingleScan := false
  mainMenuSelection := 0
  settingsSelection := 0
  settingsAcqSelection := 0
  settingsAxisSelection := 0
  settingsEditMode := false
  currentXUnit := .UNIT_PIXEL
  plotPixelMin := 0
  plotPixelMax := (PIXEL_COUNT : Int) - 1
  plotAdcMin := 0
  plotAdcMax := (ADC_MAX_VALUE : Int)
  redrawScreen := true
  log := []

end Raman

namespace Raman

/-! ## Theorems: pure data path -/

/-- C1. Dark-spectrum correction: with a stored dark spectrum the
corrected sample is `raw[i] − dark[i]` (exact, as integers) when
`raw[i] > dark[i]` and `0` otherwise, hence always `≥ 0`; with no stored
dark spectrum the corrected spectrum is the raw spectrum verbatim. -/
theorem darkCorrection_spec :
    (∀ (raw dark : Spectrum) (i : Fin PIXEL_COUNT), dark i < raw i →
      (applyDarkSpectrumCorrection true raw dark i : ℤ) = (raw i : ℤ) - (dark i : ℤ)) ∧
    (∀ (raw dark : Spectrum) (i : Fin PIXEL_COUNT), ¬ dark i < raw i →
      applyDarkSpectrumCorrection true raw dark i = 0) ∧
    (∀ (raw dark : Spectrum) (i : Fin PIXEL_COUNT),
      0 ≤ (applyDarkSpectrumCorrection true raw dark i : ℤ)) ∧
    (∀ raw dark : Spectrum, applyDarkSpectrumCorrection false raw dark = raw) := by
  refine ⟨?_, ?_, ?_, ?_⟩
  · intro raw dark i h
    simp only [applyDarkSpectrumCorrection, correctPixel, if_pos h, if_true]
    omega
  · intro raw dark i h
    simp only [applyDarkSpectrumCorrection, correctPixel, if_neg h, if_true]
  · intro raw dark i
    positivity
  · intro raw dark
    rfl

/-- C2. Command-frame encoding: `buildCommand` puts the magic "ER" at
bytes 0-1, the mode constant `0x01` at byte 10, zero at every remaining
byte `13 ≤ i < PACKET_SIZE`, and bytes 2-5, 6-9, 11-12 reassemble
big-endian to `shPeriod mod 2^32`, `icgPeriod mod 2^32` and
`integrations mod 2^16` (exact for the C `uint32_t`/`uint16_t` ranges);
in particular decoding the frame built from
`{sh := 40, icg := 32000, integrations := 1}` recovers those values. -/
theorem buildCommand_spec (p : AcquisitionParameters) :
    buildCommand p 0 = 0x45 ∧ buildCommand p 1 = 0x52 ∧
    buildCommand p 10 = 0x01 ∧
    decodeBE4 (buildCommand p) 2 = p.shPeriod % 2 ^ 32 ∧
    decodeBE4 (buildCommand p) 6 = p.icgPeriod % 2 ^ 32 ∧
    decodeBE2 (buildCommand p) 11 = p.integrations % 2 ^ 16 ∧
    ∀ i, 13 ≤ i → i < PACKET_SIZE → buildCommand p i = 0 := by
  refine ⟨rfl, rfl, rfl, ?_, ?_, ?_, ?_⟩
  · show p.shPeriod / 2 ^ 24 % 256 * 2 ^ 24 + p.shPeriod / 2 ^ 16 % 256 * 2 ^ 16
      + p.shPeriod / 2 ^ 8 % 256 * 2 ^ 8 + p.shPeriod % 256 = p.shPeriod % 2 ^ 32
    omega
  · show p.icgPeriod / 2 ^ 24 % 256 * 2 ^ 24 + p.icgPeriod / 2 ^ 16 % 256 * 2 ^ 16
      + p.icgPeriod / 2 ^ 8 % 256 * 2 ^ 8 + p.icgPeriod % 256 = p.icgPeriod % 2 ^ 32
    omega
  · show p.integrations / 2 ^ 8 % 256 * 2 ^ 8 + p.integrations % 256
      = p.integrations % 2 ^ 16
    omega
  · intro i h13 _
    simp only [buildCommand]
    have h0 : i ≠ 0 := by omega
    have h1 : i ≠ 1 := by omega
    have h2 : i ≠ 2 := by omega
    have h3 : i ≠ 3 := by omega
    have h4 : i ≠ 4 := by omega
    have h5 : i ≠ 5 := by omega
    have h6 : i ≠ 6 := by omega
    have h7 : i ≠ 7 := by omega
    have h8 : i ≠ 8 := by omega
    have h9 : i ≠ 9 := by omega
    have h10 : i ≠ 10 := by omega
    have h11 : i ≠ 11 := by omega
    have h12 : i ≠ 12 := by omega
    simp [h0, h1, h2, h3, h4, h5, h6, h7, h8, h9, h10, h11, h12]

/-- Witness for `buildCommand_spec`: the round trip at
`{sh := 40, icg := 32000, integrations := 1}` and zero-fill at byte 7000. -/
theorem buildCommand_spec_witness :
    decodeBE4 (buildCommand ⟨40, 32000, 1⟩) 2 = 40 ∧
    decodeBE4 (buildCommand ⟨40, 32000, 1⟩) 6 = 32000 ∧
    decodeBE2 (buildCommand ⟨40, 32000, 1⟩) 11 = 1 ∧
    buildCommand ⟨40, 32000, 1⟩ 7000 = 0 := by
  have h := buildCommand_spec ⟨40, 32000, 1⟩
  refine ⟨?_, ?_, ?_,
    h.2.2.2.2.2.2 7000 (by norm_num) (by norm_num [PACKET_SIZE])⟩
  · exact h.2.2.2.1.trans (by norm_num)
  · exact h.2.2.2.2.1.trans (by norm_num)
  · exact h.2.2.2.2.2.1.trans (by norm_num)

/-- C3 (as stated) is false on the code: the byte at offset `2*i` is the
LOW byte of the count, not the high byte. At a frame whose byte 0 is `1`
and byte 1 is `0`, the code decodes pixel 0 to `4095 − 1 = 4094`, while
the claimed big-endian formula gives `4095 − 256 = 3839`. -/
theorem processData_not_bigEndian :
    processData_Raw (fun j => if j = 0 then 1 else 0)
        (⟨0, by norm_num [PIXEL_COUNT]⟩ : Fin PIXEL_COUNT) = 4094 ∧
    specDecode_bigEndian (fun j => if j = 0 then 1 else 0) 0 = 3839 := by
  constructor
  · decide
  · decide

/-- C3 amended: for every frame of bytes and every pixel `i`, with the
byte at offset `2*i` taken as the LOW byte and the byte at `2*i+1` as
the HIGH byte of the 16-bit raw count `v`, the decoded sample is
`ADC_MAX_VALUE − v` whenever `v ≤ ADC_MAX_VALUE`; hence raw count `0`
decodes to `ADC_MAX_VALUE` and raw count `ADC_MAX_VALUE` to `0`. -/
theorem processData_decode (rx : Nat → Nat) (i : Fin PIXEL_COUNT)
    (hl : rx (2 * i.val) < 256) (hm : rx (2 * i.val + 1) < 256)
    (hv : rx (2 * i.val + 1) * 2 ^ 8 + rx (2 * i.val) ≤ ADC_MAX_VALUE) :
    processData_Raw rx i
      = ADC_MAX_VALUE - (rx (2 * i.val + 1) * 2 ^ 8 + rx (2 * i.val)) := by
  simp only [processData_Raw, processPixel, ADC_MAX_VALUE] at *
  rw [Nat.mod_eq_of_lt hl, Nat.mod_eq_of_lt hm]
  omega

/-- Witness for `processData_decode`: the all-zero frame (raw count `0`)
decodes pixel 0 to `ADC_MAX_VALUE = 4095`. -/
theorem processData_decode_witness :
    processData_Raw (fun _ => 0) (⟨0, by norm_num [PIXEL_COUNT]⟩ : Fin PIXEL_COUNT)
      = 4095 := by
  have h := processData_decode (fun _ => 0)
    (⟨0, by norm_num [PIXEL_COUNT]⟩ : Fin PIXEL_COUNT)
    (by norm_num) (by norm_num) (by norm_num [ADC_MAX_VALUE])
  simpa using h

/-- C8. Decode arithmetic wraps instead of clamping: the decoded sample
is the signed value `ADC_MAX_VALUE − v` reduced into `uint16_t`
(mod `2^16`), and for every 16-bit count `v` with
`ADC_MAX_VALUE < v ≤ 65535` it equals `69631 − v`, which exceeds
`ADC_MAX_VALUE` — out-of-range counts are never clamped to zero. -/
theorem processData_wraps (rx : Nat → Nat) (i : Fin PIXEL_COUNT)
    (hl : rx (2 * i.val) < 256) (hm : rx (2 * i.val + 1) < 256)
    (hv : ADC_MAX_VALUE < rx (2 * i.val + 1) * 2 ^ 8 + rx (2 * i.val)) :
    (processData_Raw rx i : ℤ)
        = ((ADC_MAX_VALUE : ℤ) - (rx (2 * i.val + 1) * 2 ^ 8 + rx (2 * i.val))) % 2 ^ 16 ∧
    processData_Raw rx i
        = 69631 - (rx (2 * i.val + 1) * 2 ^ 8 + rx (2 * i.val)) ∧
    ADC_MAX_VALUE < processData_Raw rx i := by
  simp only [processData_Raw, processPixel, ADC_MAX_VALUE] at *
  rw [Nat.mod_eq_of_lt hl, Nat.mod_eq_of_lt hm]
  refine ⟨?_, by omega, by omega⟩
  push_cast
  omega

/-- Witness for `processData_wraps`: the all-`0xFF` frame assembles to
`v = 65535` and decodes pixel 0 to `69631 − 65535 = 4096 > 4095`. -/
theorem processData_wraps_witness :
    processData_Raw (fun _ => 255) (⟨0, by norm_num [PIXEL_COUNT]⟩ : Fin PIXEL_COUNT)
      = 4096 := by
  have h := processData_wraps (fun _ => 255)
    (⟨0, by norm_num [PIXEL_COUNT]⟩ : Fin PIXEL_COUNT)
    (by norm_num) (by norm_num) (by norm_num [ADC_MAX_VALUE])
  simpa using h.2.1

/-- C4. Wavenumber conversion: `wavelengthToWavenumber` returns `0` for
every `λ ≤ EXC_LAMBDA`, returns `(1/EXC_LAMBDA − 1/λ) × 10^7` for every
`λ > EXC_LAMBDA`, and is strictly increasing on `λ > EXC_LAMBDA`. -/
theorem wavelengthToWavenumber_spec :
    (∀ l : ℚ, l ≤ EXC_LAMBDA → wavelengthToWavenumber l = 0) ∧
    (∀ l : ℚ, EXC_LAMBDA < l →
      wavelengthToWavenumber l = (1 / EXC_LAMBDA - 1 / l) * 10000000) ∧
    (∀ a b : ℚ, EXC_LAMBDA < a → a < b →
      wavelengthToWavenumber a < wavelengthToWavenumber b) := by
  refine ⟨?_, ?_, ?_⟩
  · intro l h
    simp [wavelengthToWavenumber, h]
  · intro l h
    rw [wavelengthToWavenumber, if_neg (not_le.mpr h)]
  · intro a b ha hab
    have hEa : ¬ a ≤ EXC_LAMBDA := not_le.mpr ha
    have hEb : ¬ b ≤ EXC_LAMBDA := not_le.mpr (ha.trans hab)
    rw [wavelengthToWavenumber, wavelengthToWavenumber, if_neg hEa, if_neg hEb]
    have ha0 : (0 : ℚ) < a := lt_trans (by norm_num [EXC_LAMBDA]) ha
    have hinv : 1 / b < 1 / a := by
      rw [div_lt_div_iff₀ (lt_trans ha0 hab) ha0]
      linarith
    have : 1 / EXC_LAMBDA - 1 / a < 1 / EXC_LAMBDA - 1 / b := by linarith
    linarith

/-- Witness for `wavelengthToWavenumber_spec`: the sentinel at 500 nm
(below the 532 nm excitation), the formula at 600 nm, and strict
monotonicity between 600 nm and 700 nm. -/
theorem wavelengthToWavenumber_spec_witness :
    wavelengthToWavenumber 500 = 0 ∧
    wavelengthToWavenumber 600 = (1 / 532 - 1 / 600) * 10000000 ∧
    wavelengthToWavenumber 600 < wavelengthToWavenumber 700 := by
  refine ⟨?_, ?_, ?_⟩
  · exact wavelengthToWavenumber_spec.1 500 (by norm_num [EXC_LAMBDA])
  · have h := wavelengthToWavenumber_spec.2.1 600 (by norm_num [EXC_LAMBDA])
    rw [h]
    norm_num [EXC_LAMBDA]
  · exact wavelengthToWavenumber_spec.2.2 600 700 (by norm_num [EXC_LAMBDA]) (by norm_num)

/-! ## Auxiliary lemmas on the state machine -/

theorem changeState_dataReady (s : DeviceState) (ns : ScreenState) :
    (changeState s ns).dataReady = s.dataReady := by
  cases ns <;> rfl

theorem saveDarkSpectrum_dataReady (s : DeviceState) :
    (saveDarkSpectrum s).dataReady = s.dataReady := rfl

theorem handleMainMenuInput_dataReady (s : DeviceState) (r : Int) (c : Bool) :
    (handleMainMenuInput s r c).dataReady = s.dataReady := by
  simp only [handleMainMenuInput]
  split_ifs <;> simp [changeState_dataReady]

theorem handleSettingsInput_dataReady (s : DeviceState) (r : Int) (c : Bool) :
    (handleSettingsInput s r c).dataReady = s.dataReady := by
  simp only [handleSettingsInput]
  split_ifs <;> simp [changeState_dataReady]

theorem handleSettingsAcqInput_dataReady (s : DeviceState) (r : Int) (c : Bool) :
    (handleSettingsAcqInput s r c).dataReady = s.dataReady := by
  simp only [handleSettingsAcqInput]
  split_ifs <;> simp [changeState_dataReady]

set_option maxHeartbeats 1000000 in
theorem handleSettingsAxisInput_dataReady (s : DeviceState) (r : Int) (c : Bool) :
    (handleSettingsAxisInput s r c).dataReady = s.dataReady := by
  simp only [handleSettingsAxisInput]
  split_ifs <;> rfl

theorem uiStep_dataReady (s : DeviceState) (inp : Input) :
    (uiStep s inp).dataReady = s.dataReady := by
  unfold uiStep
  cases hc : s.currentState
  case STATE_MAIN_MENU => exact handleMainMenuInput_dataReady s inp.rotation inp.clicked
  case STATE_SETTINGS => exact handleSettingsInput_dataReady s inp.rotation inp.clicked
  case STATE_SETTINGS_ACQ => exact handleSettingsAcqInput_dataReady s inp.rotation inp.clicked
  case STATE_SETTINGS_AXIS => exact handleSettingsAxisInput_dataReady s inp.rotation inp.clicked
  case STATE_ACQUISITION_CONT =>
    dsimp only
    split_ifs <;> simp [changeState_dataReady]
  case STATE_ACQUISITION_SINGLE =>
    dsimp only
    split_ifs <;> simp [changeState_dataReady]
  case STATE_ACQUISITION_DARK =>
    dsimp only
    split_ifs <;> simp [changeState_dataReady, saveDarkSpectrum_dataReady]

theorem acqStep_menu (s : DeviceState) (inp : Input) (rx : Nat → Nat)
    (h : isMenuState s.currentState = true) : acqStep s inp rx = s := by
  unfold acqStep
  cases hc : s.currentState <;> simp_all [isMenuState]

theorem redrawStep_dataReady (s : DeviceState) :
    (redrawStep s).dataReady = s.dataReady := by
  unfold redrawStep
  split <;> rfl

theorem changeState_darkSaved (s : DeviceState) (ns : ScreenState) :
    (changeState s ns).darkSpectrumSaved = s.darkSpectrumSaved := by
  cases ns <;> rfl

theorem handleMainMenuInput_darkSaved (s : DeviceState) (r : Int) (c : Bool) :
    (handleMainMenuInput s r c).darkSpectrumSaved = s.darkSpectrumSaved := by
  simp only [handleMainMenuInput]
  split_ifs <;> simp [changeState_darkSaved]

theorem handleSettingsInput_darkSaved (s : DeviceState) (r : Int) (c : Bool) :
    (handleSettingsInput s r c).darkSpectrumSaved = s.darkSpectrumSaved := by
  simp only [handleSettingsInput]
  split_ifs <;> simp [changeState_darkSaved]

theorem handleSettingsAcqInput_darkSaved (s : DeviceState) (r : Int) (c : Bool) :
    (handleSettingsAcqInput s r c).darkSpectrumSaved = s.darkSpectrumSaved := by
  simp only [handleSettingsAcqInput]
  split_ifs <;> simp [changeState_darkSaved]

set_option maxHeartbeats 1000000 in
theorem handleSettingsAxisInput_darkSaved (s : DeviceState) (r : Int) (c : Bool) :
    (handleSettingsAxisInput s r c).darkSpectrumSaved = s.darkSpectrumSaved := by
  simp only [handleSettingsAxisInput]
  split_ifs <;> rfl

theorem uiStep_darkSaved_mono (s : DeviceState) (inp : Input)
    (h : s.darkSpectrumSaved = true) :
    (uiStep s inp).darkSpectrumSaved = true := by
  unfold uiStep
  cases hc : s.currentState
  case STATE_MAIN_MENU =>
    rw [handleMainMenuInput_darkSaved]; exact h
  case STATE_SETTINGS =>
    rw [handleSettingsInput_darkSaved]; exact h
  case STATE_SETTINGS_ACQ =>
    rw [handleSettingsAcqInput_darkSaved]; exact h
  case STATE_SETTINGS_AXIS =>
    rw [handleSettingsAxisInput_darkSaved]; exact h
  case STATE_ACQUISITION_CONT =>
    dsimp only
    split_ifs <;> simp [changeState_darkSaved, h]
  case STATE_ACQUISITION_SINGLE =>
    dsimp only
    split_ifs <;> simp [changeState_darkSaved, h]
  case STATE_ACQUISITION_DARK =>
    dsimp only
    split_ifs <;> simp [changeState_darkSaved, saveDarkSpectrum, h]

set_option maxHeartbeats 1000000 in
theorem acqStep_darkSaved (s : DeviceState) (inp : Input) (rx : Nat → Nat) :
    (acqStep s inp rx).darkSpectrumSaved = s.darkSpectrumSaved := by
  simp only [acqStep]
  split_ifs <;> rfl

theorem redrawStep_darkSaved (s : DeviceState) :
    (redrawStep s).darkSpectrumSaved = s.darkSpectrumSaved := by
  unfold redrawStep
  split <;> rfl

/-! ## Theorems: state machine claims -/

/-- C9. Stale ready flag across mode entry: the `dataReady` flag is
tested and cleared only in the three acquisition states — any iteration
whose UI phase lands in a menu/settings state leaves the flag exactly as
it was (a ready edge there stays pending indefinitely); and selecting
ContinuousScan from the main menu while the flag is still set consumes
the stale flag in that same first poll iteration, immediately performing
a bus exchange and a publish. -/
theorem dataReady_stale_spec :
    (∀ (s : DeviceState) (inp : Input) (rx : Nat → Nat),
      isMenuState (uiStep s inp).currentState = true →
      (loopStep s inp rx).dataReady = s.dataReady) ∧
    (∀ (s : DeviceState) (inp : Input) (rx : Nat → Nat),
      s.currentState = .STATE_MAIN_MENU → s.mainMenuSelection = 0 →
      inp.rotation = 0 → inp.clicked = true → s.dataReady = true →
      (loopStep s inp rx).currentState = .STATE_ACQUISITION_CONT ∧
      (loopStep s inp rx).dataReady = false ∧
      (loopStep s inp rx).log = s.log ++
        [Event.kickStart, Event.busExchange,
         Event.wifiSend (applyDarkSpectrumCorrection s.darkSpectrumSaved
           (processData_Raw rx) s.darkSpectrumData),
         Event.drawGraph .STATE_ACQUISITION_CONT]) := by
  constructor
  · intro s inp rx h
    rw [loopStep, acqStep_menu _ _ _ h, redrawStep_dataReady, uiStep_dataReady]
  · intro s inp rx h1 h2 h3 h4 h5
    have hui : uiStep s inp = changeState s .STATE_ACQUISITION_CONT := by
      unfold uiStep
      rw [h1]
      simp [handleMainMenuInput, h2, h3, h4]
    rw [loopStep, hui]
    simp [changeState, acqStep, redrawStep, h5]

/-- Witness for `dataReady_stale_spec`: a ready edge pending in the main
menu survives a no-input iteration, and clicking "Aquis. Continua" with
the flag set immediately exchanges and publishes. -/
theorem dataReady_stale_spec_witness :
    (loopStep (onDataReady initState) ⟨0, false, false⟩ (fun _ => 0)).dataReady
        = (onDataReady initState).dataReady ∧
    (loopStep (onDataReady initState) ⟨0, true, false⟩ (fun _ => 0)).currentState
        = .STATE_ACQUISITION_CONT := by
  constructor
  · exact dataReady_stale_spec.1 (onDataReady initState) ⟨0, false, false⟩
      (fun _ => 0) (by decide)
  · exact (dataReady_stale_spec.2 (onDataReady initState) ⟨0, true, false⟩
      (fun _ => 0) rfl rfl rfl rfl rfl).1

/-- C5. Dark-capture scenario: a scan completed in DarkCapture is
published verbatim (`pixel_data` is the decoded raw spectrum, no dark
subtraction); the capture-dark long press stores the current raw
spectrum as the dark spectrum; a stored dark spectrum persists across
every later iteration; and every scan completed in ContinuousScan with a
stored dark spectrum publishes `raw − savedDark` clamped at zero
pixel-wise — both in `pixel_data` and in the transport publish. -/
theorem darkCapture_scenario_spec :
    (∀ (s : DeviceState) (inp : Input) (rx : Nat → Nat),
      s.currentState = .STATE_ACQUISITION_DARK →
      inp.rotation = 0 → inp.clicked = false → inp.longPress = false →
      s.dataReady = true → s.waitingForSingleScan = true →
      (loopStep s inp rx).pixelData = processData_Raw rx ∧
      (loopStep s inp rx).log
        = s.log ++ [Event.busExchange, Event.drawGraph .STATE_ACQUISITION_DARK]) ∧
    (∀ (s : DeviceState) (inp : Input) (rx : Nat → Nat),
      s.currentState = .STATE_ACQUISITION_DARK →
      inp.rotation = 0 → inp.clicked = false → inp.longPress = true →
      (loopStep s inp rx).darkSpectrumSaved = true ∧
      (loopStep s inp rx).darkSpectrumData = s.rawPixelData) ∧
    (∀ (s : DeviceState) (inp : Input) (rx : Nat → Nat),
      s.darkSpectrumSaved = true →
      (loopStep s inp rx).darkSpectrumSaved = true) ∧
    (∀ (s : DeviceState) (inp : Input) (rx : Nat → Nat),
      s.currentState = .STATE_ACQUISITION_CONT → inp.clicked = false →
      s.dataReady = true → s.darkSpectrumSaved = true →
      (loopStep s inp rx).pixelData
        = (fun i => correctPixel (processData_Raw rx i) (s.darkSpectrumData i)) ∧
      (loopStep s inp rx).log = s.log ++
        [Event.busExchange,
         Event.wifiSend (fun i => correctPixel (processData_Raw rx i) (s.darkSpectrumData i)),
         Event.drawGraph .STATE_ACQUISITION_CONT]) := by
  refine ⟨?_, ?_, ?_, ?_⟩
  · intro s inp rx h1 h2 h3 h4 h5 h6
    have hui : uiStep s inp = s := by
      unfold uiStep
      rw [h1]
      simp [h2, h3, h4]
    rw [loopStep, hui]
    simp [acqStep, redrawStep, h1, h5, h6]
  · intro s inp rx h1 h2 h3 h4
    have hui : uiStep s inp = changeState (saveDarkSpectrum s) .STATE_MAIN_MENU := by
      unfold uiStep
      rw [h1]
      simp [h2, h3, h4]
    rw [loopStep, hui]
    simp [changeState, saveDarkSpectrum, acqStep, redrawStep]
  · intro s inp rx h
    rw [loopStep, redrawStep_darkSaved, acqStep_darkSaved]
    exact uiStep_darkSaved_mono s inp h
  · intro s inp rx h1 h2 h3 h4
    have hui : uiStep s inp = s := by
      unfold uiStep
      rw [h1]
      simp [h2]
    rw [loopStep, hui]
    simp [acqStep, redrawStep, h1, h3, h4, applyDarkSpectrumCorrection]

/-- Witness for `darkCapture_scenario_spec`: a DarkCapture completion on
an all-zero frame publishes the raw decode (pixel 0 is `4095`), and a
ContinuousScan completion with an all-`4095` stored dark clamps pixel 0
to `0`. -/
theorem darkCapture_scenario_spec_witness :
    (loopStep
        { initState with
          currentState := .STATE_ACQUISITION_DARK
          dataReady := true
          waitingForSingleScan := true }
        ⟨0, false, false⟩
        (fun _ => 0)).pixelData (⟨0, by norm_num [PIXEL_COUNT]⟩ : Fin PIXEL_COUNT)
      = 4095 ∧
    (loopStep
        { initState with
          currentState := .STATE_ACQUISITION_CONT
          dataReady := true
          darkSpectrumSaved := true
          darkSpectrumData := fun _ => 4095 }
        ⟨0, false, false⟩
        (fun _ => 0)).pixelData (⟨0, by norm_num [PIXEL_COUNT]⟩ : Fin PIXEL_COUNT)
      = 0 := by
  constructor
  · have h := (darkCapture_scenario_spec.1
      { initState with
        currentState := .STATE_ACQUISITION_DARK
        dataReady := true
        waitingForSingleScan := true }
      ⟨0, false, false⟩ (fun _ => 0) rfl rfl rfl rfl rfl rfl).1
    rw [h]
    decide
  · have h := (darkCapture_scenario_spec.2.2.2
      { initState with
        currentState := .STATE_ACQUISITION_CONT
        dataReady := true
        darkSpectrumSaved := true
        darkSpectrumData := fun _ => 4095 }
      ⟨0, false, false⟩ (fun _ => 0) rfl rfl rfl rfl).1
    rw [h]
    decide

/-- C6 as stated is refuted by the code: with the single-scan latch
armed (`waitingForSingleScan = true`, a request in flight), a rotation
("exit") gesture in SingleScan moves to the main menu on that very
iteration — the exit is not deferred until the scan completes. -/
theorem singleScan_exit_claim_false :
    ({ initState with
        currentState := .STATE_ACQUISITION_SINGLE
        waitingForSingleScan := true } : DeviceState).waitingForSingleScan = true ∧
    (loopStep
        { initState with
          currentState := .STATE_ACQUISITION_SINGLE
          waitingForSingleScan := true }
        ⟨1, false, false⟩
        (fun _ => 0)).currentState = .STATE_MAIN_MENU :=
  ⟨rfl, rfl⟩

/-- C6 amended: in SingleScan a rotation ("exit") gesture returns to the
main menu on that same poll iteration regardless of whether the
single-scan latch is armed — an in-flight request is abandoned, not
completed — and the exit issues no bus exchange and no kick-start: the
only logged effect of the iteration is the menu redraw. In particular,
from the latch-cleared wait state after a displayed scan, an exit
gesture returns to the menu without another bus exchange. -/
theorem singleScan_exit_spec (s : DeviceState) (inp : Input) (rx : Nat → Nat)
    (hst : s.currentState = .STATE_ACQUISITION_SINGLE)
    (hrot : inp.rotation ≠ 0) :
    (loopStep s inp rx).currentState = .STATE_MAIN_MENU ∧
    (loopStep s inp rx).log = s.log ++ [Event.drawScreen .STATE_MAIN_MENU] := by
  have hui : uiStep s inp = changeState s .STATE_MAIN_MENU := by
    unfold uiStep
    rw [hst]
    simp [hrot]
  rw [loopStep, hui]
  simp [changeState, acqStep, redrawStep]

/-- Witness for `singleScan_exit_spec`: from the latch-cleared wait
state, a rotation returns to the menu and logs only the menu redraw. -/
theorem singleScan_exit_spec_witness :
    (loopStep
        { initState with
          currentState := .STATE_ACQUISITION_SINGLE
          waitingForSingleScan := false
          redrawScreen := false }
        ⟨1, false, false⟩
        (fun _ => 0)).currentState = .STATE_MAIN_MENU ∧
    (loopStep
        { initState with
          currentState := .STATE_ACQUISITION_SINGLE
          waitingForSingleScan := false
          redrawScreen := false }
        ⟨1, false, false⟩
        (fun _ => 0)).log = [Event.drawScreen .STATE_MAIN_MENU] := by
  have h := singleScan_exit_spec
    { initState with
      currentState := .STATE_ACQUISITION_SINGLE
      waitingForSingleScan := false
      redrawScreen := false }
    ⟨1, false, false⟩ (fun _ => 0) rfl (by decide)
  refine ⟨h.1, ?_⟩
  simpa using h.2

/-- C7: the code contradicts the silent-clamp claim at its own boundary.
`SH_PERIOD` is a C `uint32_t`: a decrement step of −100 taken at the
minimum 40 (reachable by repeated decrements, since `0` is clamped up to
`40`) wraps to `2^32 − 60 = 4294967236`, so the `< 40` floor check does
not fire and the value is not left at the minimum. The `ICG_PERIOD`
decrement at its minimum 32000 is clamped correctly. -/
theorem shPeriod_clamp_wraps :
    (handleSettingsAcqInput
        { initState with
          currentState := .STATE_SETTINGS_ACQ
          settingsEditMode := true
          settingsAcqSelection := 0
          shPeriod := 40 }
        (-1) false).shPeriod = 4294967236 ∧
    (handleSettingsAcqInput
        { initState with
          currentState := .STATE_SETTINGS_ACQ
          settingsEditMode := true
          settingsAcqSelection := 0
          shPeriod := 100 }
        (-1) false).shPeriod = 40 ∧
    (handleSettingsAcqInput
        { initState with
          currentState := .STATE_SETTINGS_ACQ
          settingsEditMode := true
          settingsAcqSelection := 1
          icgPeriod := 32000 }
        (-1) false).icgPeriod = 32000 := by
  refine ⟨?_, ?_, ?_⟩ <;> decide

/-- C10. Transport publishing per mode: a DarkCapture completion logs a
bus exchange and a graph render only — `sendDataViaWiFi` is never
invoked; a ContinuousScan or SingleScan completion invokes
`sendDataViaWiFi` with the corrected spectrum before the graph render;
and the transport write for a connected client is the start marker
`AA BB CC DD` followed by the spectrum bytes. -/
theorem transportPublish_spec :
    (∀ (s : DeviceState) (inp : Input) (rx : Nat → Nat),
      s.currentState = .STATE_ACQUISITION_DARK →
      inp.rotation = 0 → inp.clicked = false → inp.longPress = false →
      s.dataReady = true → s.waitingForSingleScan = true →
      (loopStep s inp rx).log
        = s.log ++ [Event.busExchange, Event.drawGraph .STATE_ACQUISITION_DARK]) ∧
    (∀ (s : DeviceState) (inp : Input) (rx : Nat → Nat),
      s.currentState = .STATE_ACQUISITION_CONT → inp.clicked = false →
      s.dataReady = true →
      (loopStep s inp rx).log = s.log ++
        [Event.busExchange,
         Event.wifiSend (applyDarkSpectrumCorrection s.darkSpectrumSaved
           (processData_Raw rx) s.darkSpectrumData),
         Event.drawGraph .STATE_ACQUISITION_CONT]) ∧
    (∀ (s : DeviceState) (inp : Input) (rx : Nat → Nat),
      s.currentState = .STATE_ACQUISITION_SINGLE → inp.rotation = 0 →
      s.dataReady = true → s.waitingForSingleScan = true →
      (loopStep s inp rx).log = s.log ++
        [Event.busExchange,
         Event.wifiSend (applyDarkSpectrumCorrection s.darkSpectrumSaved
           (processData_Raw rx) s.darkSpectrumData),
         Event.drawGraph .STATE_ACQUISITION_SINGLE]) ∧
    (∀ d : Spectrum, sendDataViaWiFi true d = [0xAA, 0xBB, 0xCC, 0xDD] ++
      (List.finRange PIXEL_COUNT).flatMap (fun i => [d i % 256, d i / 256 % 256])) := by
  refine ⟨?_, ?_, ?_, ?_⟩
  · intro s inp rx h1 h2 h3 h4 h5 h6
    have hui : uiStep s inp = s := by
      unfold uiStep
      rw [h1]
      simp [h2, h3, h4]
    rw [loopStep, hui]
    simp [acqStep, redrawStep, h1, h5, h6]
  · intro s inp rx h1 h2 h3
    have hui : uiStep s inp = s := by
      unfold uiStep
      rw [h1]
      simp [h2]
    rw [loopStep, hui]
    simp [acqStep, redrawStep, h1, h3]
  · intro s inp rx h1 h2 h3 h4
    have hui : uiStep s inp = s := by
      unfold uiStep
      rw [h1]
      simp [h2]
    rw [loopStep, hui]
    simp [acqStep, redrawStep, h1, h3, h4]
  · intro d
    rfl

/-- Witness for `transportPublish_spec`: at concrete states, DarkCapture
logs no transport invocation while ContinuousScan logs exactly one,
between the exchange and the render. -/
theorem transportPublish_spec_witness :
    (loopStep
        { initState with
          currentState := .STATE_ACQUISITION_DARK
          dataReady := true
          waitingForSingleScan := true }
        ⟨0, false, false⟩
        (fun _ => 0)).log
      = [Event.busExchange, Event.drawGraph .STATE_ACQUISITION_DARK] ∧
    (loopStep
        { initState with
          currentState := .STATE_ACQUISITION_CONT
          dataReady := true }
        ⟨0, false, false⟩ (fun _ => 0)).log
      = [Event.busExchange,
         Event.wifiSend (applyDarkSpectrumCorrection false
           (processData_Raw (fun _ => 0)) (fun _ => 0)),
         Event.drawGraph .STATE_ACQUISITION_CONT] := by
  constructor
  · have h := transportPublish_spec.1
      { initState with
        currentState := .STATE_ACQUISITION_DARK
        dataReady := true
        waitingForSingleScan := true }
      ⟨0, false, false⟩ (fun _ => 0) rfl rfl rfl rfl rfl rfl
    simpa using h
  · have h := transportPublish_spec.2.1
      { initState with
        currentState := .STATE_ACQUISITION_CONT
        dataReady := true }
      ⟨0, false, false⟩ (fun _ => 0) rfl rfl rfl
    simpa using h

/-- Witness for `darkCorrection_spec` at concrete samples. -/
theorem darkCorrection_spec_witness :
    (applyDarkSpectrumCorrection true (fun _ => 5) (fun _ => 3)
      (⟨0, by norm_num [PIXEL_COUNT]⟩ : Fin PIXEL_COUNT) : ℤ) = (5 : ℤ) - 3 ∧
    applyDarkSpectrumCorrection true (fun _ => 3) (fun _ => 7)
      (⟨0, by norm_num [PIXEL_COUNT]⟩ : Fin PIXEL_COUNT) = 0 := by
  constructor
  · exact darkCorrection_spec.1 (fun _ => 5) (fun _ => 3) _ (by norm_num)
  · exact darkCorrection_spec.2.1 (fun _ => 3) (fun _ => 7) _ (by norm_num)

end Raman
